import Mathlib

/-!
Verification of the IoTIntel-StreamSense anomaly-detection engine.

Shallow embedding of:
  * src/ml-server/server.py   (Flask scoring service, namespace MlServer)
  * src/ml-trainer/trainer.py (offline trainer, namespace Trainer)
  * src/dataflow/pipeline.py  (Beam streaming pipeline, namespace Pipeline)

Python floats are modelled as rationals; nullable JSON fields as Option;
exceptions as explicit error branches.  Loaded sklearn artifacts (scalers,
isolation forests) are opaque functions supplied as parameters: the code
never inspects them beyond transform / decision_function / predict.
-/

namespace MlServer

/-- Result of pd.to_datetime on a concrete timestamp value: the fields of a
pandas Timestamp that server.py reads (hour, dayofweek) plus the iso string
used when echoing.  An Instant stands for one concrete point in time. -/
structure Instant where
  hour : ℕ
  dayofweek : ℕ
  iso : String
deriving DecidableEq, Repr

/-- Value found in the timestamp field of a request body: either a string that
pd.to_datetime parses (good) or one that makes it raise (malformed). -/
inductive TsVal where
  | good (t : Instant)
  | malformed (s : String)
deriving DecidableEq, Repr

/-- JSON request body for the detection endpoints: every field the handler
reads, each optional because request bodies are free-form dictionaries. -/
structure Payload where
  device_id : Option String
  timestamp : Option TsVal
  temperature : Option ℚ
  vibration : Option ℚ
deriving DecidableEq, Repr

/-- Feature dictionary returned by prepare_features in server.py. -/
structure Features where
  temperature : ℚ
  vibration : ℚ
  hour : ℕ
  day_of_week : ℕ
  temp_ma : ℚ
  vibration_ma : ℚ
  temp_zscore : ℚ
  vibration_zscore : ℚ
deriving DecidableEq, Repr

/-- prepare_features from server.py lines 62-95: timestamp defaults to now,
a malformed timestamp raises inside the try and yields None, temperature and
vibration default to 0, moving averages degenerate to the instantaneous
value and z-scores to 0 (no history in serving mode). -/
def prepare_features (data : Payload) (now : Instant) : Option Features :=
  match data.timestamp with
  | some (TsVal.malformed _) => none
  | some (TsVal.good t) =>
      let temperature := data.temperature.getD 0
      let vibration := data.vibration.getD 0
      some { temperature := temperature, vibration := vibration,
             hour := t.hour, day_of_week := t.dayofweek,
             temp_ma := temperature, vibration_ma := vibration,
             temp_zscore := 0, vibration_zscore := 0 }
  | none =>
      let temperature := data.temperature.getD 0
      let vibration := data.vibration.getD 0
      some { temperature := temperature, vibration := vibration,
             hour := now.hour, day_of_week := now.dayofweek,
             temp_ma := temperature, vibration_ma := vibration,
             temp_zscore := 0, vibration_zscore := 0 }

/-- Row of five features fed to one signal model, in the order built at
server.py lines 235-236 / 242-243. -/
def FVec : Type := ℚ × ℚ × ℚ × ℚ × ℚ

instance : DecidableEq FVec := by unfold FVec; infer_instance

/-- Loaded isolation-forest artifact for one signal: the two methods the
server calls on it.  predictNeg x is true when model.predict returns -1. -/
structure ForestModel where
  decision_function : FVec → ℚ
  predictNeg : FVec → Bool

/-- Loaded scaler artifact: the transform method. -/
def Scaler : Type := FVec → FVec

/-- Global model state of server.py (lines 31-34): each slot is None until
load_models succeeds. -/
structure ServerState where
  temp_model : Option ForestModel
  temp_scaler : Option Scaler
  vibration_model : Option ForestModel
  vibration_scaler : Option Scaler

/-- Prometheus counters of server.py that the detect handler mutates. -/
structure Metrics where
  ml_predictions_total : ℕ
  ml_predictions_success_total : ℕ
  ml_anomalies_detected_total : ℕ
  ml_temperature_anomalies_total : ℕ
  ml_vibration_anomalies_total : ℕ
deriving DecidableEq, Repr

/-- Timestamp field of a successful response: the raw payload value echoed
back, or the iso form of the current time when the payload had none
(server.py line 261). -/
inductive TsEcho where
  | fromPayload (v : TsVal)
  | fromNow (t : Instant)
deriving DecidableEq, Repr

/-- Body of a 200 response from the combined /detect endpoint
(server.py lines 259-269). -/
structure PredictionResult where
  device_id : String
  timestamp : TsEcho
  temperature : ℚ
  vibration : ℚ
  temp_anomaly_score : ℚ
  vibration_anomaly_score : ℚ
  is_temp_anomaly : Bool
  is_vibration_anomaly : Bool
  is_anomaly : Bool
deriving DecidableEq, Repr

/-- HTTP response of the /detect handler: a 200 with a PredictionResult, or
an error status (400 or 500) with a JSON error body. -/
inductive DetectResp where
  | ok (r : PredictionResult)
  | err (status : ℕ)
deriving DecidableEq, Repr

/-- HTTP status code of a response. -/
def DetectResp.statusCode : DetectResp → ℕ
  | DetectResp.ok _ => 200
  | DetectResp.err s => s

/-- detect_anomalies, the POST /detect handler of server.py lines 208-281,
as a function of the loaded artifacts, the counter state, the current time
and the parsed request body (none models an absent or empty body, for which
`if not data` fires).  Returns the response together with the new counter
state.  Control flow mirrors the code: the models-loaded check precedes the
ml_predictions_total increment, which precedes the body check; a missing
scaler raises at transform time and is caught by the outer handler as a
500. -/
def detect_anomalies (st : ServerState) (m : Metrics) (now : Instant)
    (body : Option Payload) : DetectResp × Metrics :=
  match st.temp_model, st.vibration_model with
  | some tm, some vm =>
      let m1 := { m with ml_predictions_total := m.ml_predictions_total + 1 }
      match body with
      | none => (DetectResp.err 400, m1)
      | some data =>
          match prepare_features data now with
          | none => (DetectResp.err 500, m1)
          | some features =>
              match st.temp_scaler, st.vibration_scaler with
              | some tsc, some vsc =>
                  let xTemp : FVec := (features.temperature, (features.hour : ℚ),
                    (features.day_of_week : ℚ), features.temp_ma, features.temp_zscore)
                  let xTempScaled := tsc xTemp
                  let temp_anomaly_score := tm.decision_function xTempScaled
                  let is_temp_anomaly := tm.predictNeg xTempScaled
                  let xVib : FVec := (features.vibration, (features.hour : ℚ),
                    (features.day_of_week : ℚ), features.vibration_ma, features.vibration_zscore)
                  let xVibScaled := vsc xVib
                  let vibration_anomaly_score := vm.decision_function xVibScaled
                  let is_vibration_anomaly := vm.predictNeg xVibScaled
                  let m2 := { m1 with
                    ml_anomalies_detected_total := m1.ml_anomalies_detected_total +
                      (if is_temp_anomaly || is_vibration_anomaly then 1 else 0),
                    ml_temperature_anomalies_total := m1.ml_temperature_anomalies_total +
                      (if is_temp_anomaly then 1 else 0),
                    ml_vibration_anomalies_total := m1.ml_vibration_anomalies_total +
                      (if is_vibration_anomaly then 1 else 0) }
                  let result : PredictionResult := {
                    device_id := data.device_id.getD "unknown",
                    timestamp := match data.timestamp with
                      | some v => TsEcho.fromPayload v
                      | none => TsEcho.fromNow now,
                    temperature := features.temperature,
                    vibration := features.vibration,
                    temp_anomaly_score := temp_anomaly_score,
                    vibration_anomaly_score := vibration_anomaly_score,
                    is_temp_anomaly := is_temp_anomaly,
                    is_vibration_anomaly := is_vibration_anomaly,
                    is_anomaly := is_temp_anomaly || is_vibration_anomaly }
                  let m3 := { m2 with
                    ml_predictions_success_total := m2.ml_predictions_success_total + 1 }
                  (DetectResp.ok result, m3)
              | _, _ => (DetectResp.err 500, m1)
  | _, _ => (DetectResp.err 500, m)

/-- Counter state at process start, before any request. -/
def Metrics.init : Metrics := ⟨0, 0, 0, 0, 0⟩

/-- Counter state after a sequence of calls to the /detect handler, each
call supplying its loaded-artifact state, current time and body. -/
def runCalls (calls : List (ServerState × Instant × Option Payload)) : Metrics :=
  calls.foldl (fun m c => (detect_anomalies c.1 m c.2.1 c.2.2).2) Metrics.init

/-- Identity scaler: a loaded StandardScaler whose transform is the
identity (mean 0, variance 1 per dimension). -/
def idScaler : Scaler := fun x => x

/-- Loaded forest whose decision function is constantly 1 and which never
predicts -1. -/
def constForest : ForestModel := ⟨fun _ => 1, fun _ => false⟩

/-- Loaded forest whose decision function returns the hour feature (second
component of the feature row); isolation forests genuinely depend on every
feature dimension, this one only on the hour. -/
def hourForest : ForestModel := ⟨fun x => x.2.1, fun _ => false⟩

/-- Server state with the constant forest loaded for both signals. -/
def loadedState : ServerState := ⟨some constForest, some idScaler, some constForest, some idScaler⟩

/-- Server state with the hour-sensitive forest loaded for both signals. -/
def hourState : ServerState := ⟨some hourForest, some idScaler, some hourForest, some idScaler⟩

/-- Server state before load_models has succeeded: no artifacts. -/
def emptyState : ServerState := ⟨none, none, none, none⟩

/-- Concrete instant used by witnesses. -/
def noonInstant : Instant := ⟨12, 3, "2026-01-01T12:00:00"⟩

/-- Instant falling in the 1 am hour. -/
def oneAmInstant : Instant := ⟨1, 3, "2026-01-01T01:00:00"⟩

/-- Instant falling in the 2 am hour. -/
def twoAmInstant : Instant := ⟨2, 3, "2026-01-01T02:00:00"⟩

/-- Payload with a device id but no timestamp. -/
def basicPayload : Payload := ⟨some "dev-1", none, some 22, some 1⟩

/-- Payload containing only temperature and vibration. -/
def minimalPayload : Payload := ⟨none, none, some 22, some 1⟩

/-- Payload carrying an explicit well-formed timestamp. -/
def tsPayload : Payload := ⟨some "dev-1", some (TsVal.good noonInstant), some 22, some 1⟩

/-- Prediction result returned for basicPayload against loadedState at
noonInstant. -/
def okResultBasic : PredictionResult :=
  ⟨"dev-1", TsEcho.fromNow noonInstant, 22, 1, 1, 1, false, false, false⟩

end MlServer

namespace Trainer

/-- Mean of a list of rationals, matching pandas Series.mean on a nonempty
series (sum divided by length; division by zero yields 0 in ℚ but every use
below guards the length). -/
def listMean (l : List ℚ) : ℚ := l.sum / l.length

/-- Trailing window pandas uses at position i of a per-device series under
rolling(window=5, min_periods=1): the last min(5, i+1) elements of the
prefix ending at i (trainer.py lines 80-81). -/
def rollingWindow (xs : List ℚ) (i : ℕ) : List ℚ :=
  let pre := xs.take (i + 1)
  pre.drop (pre.length - 5)

/-- Per-device moving-average column produced by
groupby(device).rolling(window=5, min_periods=1).mean() in
prepare_features (trainer.py lines 80-81), on one device series already
sorted by timestamp. -/
def rollingMean5 (xs : List ℚ) : List ℚ :=
  (List.range xs.length).map (fun i => listMean (rollingWindow xs i))

/-- Modelled from the spec: the window of the up to 5 most-recent readings
for the device, inclusive of the current one, at position i — written as
the spec describes it, most-recent-first selection restored to
chronological order. -/
def specTrailingWindow (xs : List ℚ) (i : ℕ) : List ℚ :=
  ((xs.take (i + 1)).reverse.take 5).reverse

/-- Modelled from the spec: temp_moving_avg / vibration_moving_avg as the
mean of the signal over the trailing window of up to 5 most-recent
readings, fewer than 5 available averaged over whatever is available. -/
def specMovingAvg (xs : List ℚ) (i : ℕ) : ℚ := listMean (specTrailingWindow xs i)

/-- Pandas float value as it flows through the z-score computation.  A
finite value num / sqrt sv (sv the sample variance, kept unevaluated
because square roots leave ℚ; every finite plain rational q is encoded as
finite q 1).  nan, inf and ninf model the IEEE specials pandas produces on
division by a zero or undefined standard deviation. -/
inductive PdFloat where
  | nan
  | inf
  | ninf
  | finite (num : ℚ) (sv : ℚ)
deriving DecidableEq, Repr

/-- Division (x - mean) / std performed elementwise by the z-score lambda at
trainer.py lines 84-85, where std is the ddof=1 sample standard deviation of
a series of length n with sample variance sv: length 1 gives std = NaN so
the quotient is NaN; sv = 0 gives std = 0.0 so the quotient follows IEEE
division by zero; otherwise the finite quotient num / sqrt sv. -/
def pdDivByStd (num : ℚ) (sv : ℚ) (n : ℕ) : PdFloat :=
  if n ≤ 1 then PdFloat.nan
  else if sv = 0 then
    (if num = 0 then PdFloat.nan
     else if 0 < num then PdFloat.inf else PdFloat.ninf)
  else PdFloat.finite num sv

/-- Sample variance with ddof = 1 (the pandas Series.std default), squared:
sum of squared deviations over (n - 1).  Only meaningful for n ≥ 2, which
pdDivByStd guards. -/
def sampleVar (xs : List ℚ) : ℚ :=
  ((xs.map (fun x => (x - listMean xs) ^ 2)).sum) / ((xs.length : ℚ) - 1)

/-- Z-score column for one device series computed by the lambda
(x - x.mean()) / x.std() at trainer.py lines 84-85. -/
def zscoreColumn (xs : List ℚ) : List PdFloat :=
  xs.map (fun x => pdDivByStd (x - listMean xs) (sampleVar xs) xs.length)

/-- fillna(0) applied to one value (trainer.py line 89): NaN becomes the
plain 0.0, every other value — infinities included — is kept. -/
def fillna0 : PdFloat → PdFloat
  | PdFloat.nan => PdFloat.finite 0 1
  | v => v

/-- True when the value is the NaN that pandas treats as null. -/
def PdFloat.isNull : PdFloat → Bool
  | PdFloat.nan => true
  | _ => false

/-- True when the value is a finite representation of zero. -/
def PdFloat.isZero : PdFloat → Bool
  | PdFloat.finite num _ => num == 0
  | _ => false

/-- Z-score feature column as handed to fitting: the raw column after the
fillna(0) at trainer.py line 89. -/
def zscoreFeature (xs : List ℚ) : List PdFloat :=
  (zscoreColumn xs).map fillna0

/-- Outcome of fetch_training_data (trainer.py lines 35-63): none when the
query raised (the except branch returns None), otherwise the number of rows
fetched; df.empty corresponds to 0 rows. -/
def FetchOutcome : Type := Option ℕ

/-- Environment of one training run: which fallible steps succeed.  Each
flag stands for the corresponding Python block completing without an
exception (fit covers everything in train_isolation_forest before the
metrics write: split, scaling, fitting, predicting; eval covers the
evaluate_model body through its metrics-file write). -/
structure RunEnv where
  fetched : Option ℕ
  prep_ok : Bool
  fit_temp_ok : Bool
  eval_temp_ok : Bool
  fit_vib_ok : Bool
  eval_vib_ok : Bool
deriving DecidableEq, Repr

/-- evaluate_model (trainer.py lines 137-169) as an effect on the set of
persisted files: writes name_metrics.json unless its body raised, in which
case its own except branch swallows the error and nothing is written. -/
def evaluate_model (eval_ok : Bool) (name : String) (store : List String) :
    List String :=
  if eval_ok then store ++ [name ++ "_metrics.json"] else store

/-- train_isolation_forest (trainer.py lines 97-135) as an effect on the set
of persisted files: when fitting (split / scale / fit / predict) raises,
the except branch returns with nothing persisted; otherwise evaluate_model
runs first (writing the metrics file) and then model and scaler are
dumped. -/
def train_isolation_forest (fit_ok eval_ok : Bool) (name : String)
    (store : List String) : List String :=
  if fit_ok then
    evaluate_model eval_ok name store ++ [name ++ "_model.pkl", name ++ "_scaler.pkl"]
  else store

/-- train_models (trainer.py lines 171-201): fetch, bail out on None or
empty; prepare features, bail out on failure; then train the temperature
model and, regardless of its success, the vibration model.  Returns the
files persisted by the run; every failure path returns normally (the
process never crashes). -/
def train_models (env : RunEnv) : List String :=
  match env.fetched with
  | none => []
  | some n =>
      if n = 0 then []
      else if env.prep_ok then
        let s1 := train_isolation_forest env.fit_temp_ok env.eval_temp_ok
          "temperature" []
        train_isolation_forest env.fit_vib_ok env.eval_vib_ok "vibration" s1
      else []

/-- Run in which fetch returns 10 rows, feature preparation succeeds, the
temperature fit raises, and the vibration fit and evaluation succeed. -/
def fitFailEnv : RunEnv := ⟨some 10, true, false, true, true, true⟩

end Trainer

namespace Pipeline

/-- Location sub-dictionary of a pipeline message. -/
structure Location where
  building : String
  floor : ℤ
  room : String
deriving DecidableEq, Repr

/-- sensor_data sub-dictionary of a pipeline message; every key optional
because stages add keys as the record flows. -/
structure SensorData where
  temperature : Option ℚ
  vibration : Option ℚ
  temp_ma : Option ℚ
  vibration_ma : Option ℚ
  temp_zscore : Option ℚ
  vibration_zscore : Option ℚ
  temp_anomaly_score : Option ℚ
  vibration_anomaly_score : Option ℚ
  anomaly_type : Option String
deriving DecidableEq, Repr

/-- Dictionary flowing between pipeline stages: every key some stage of
pipeline.py reads or writes, optional because messages are free-form JSON
and a missing key raises KeyError at its point of use. -/
structure Element where
  device_id : Option String
  timestamp : Option String
  processed_at : Option String
  location : Option Location
  device_type : Option String
  sensor_data : Option SensorData
  is_anomaly : Option Bool
deriving DecidableEq, Repr

/-- Raw Pub/Sub message: either bytes that json.loads decodes into a record
dictionary, or bytes on which parsing (or the processed_at assignment)
raises. -/
inductive RawMsg where
  | valid (e : Element)
  | invalid (s : String)
deriving DecidableEq, Repr

/-- ParseMessage.process (pipeline.py lines 17-31): decode, stamp
processed_at with the current time, route undecodable input to the errors
output. -/
def parseMessage (now : String) (m : RawMsg) : Except RawMsg Element :=
  match m with
  | RawMsg.valid e => Except.ok { e with processed_at := some now }
  | RawMsg.invalid s => Except.error (RawMsg.invalid s)

/-- PreprocessData.process (pipeline.py lines 52-66): copy the raw signal
values into the placeholder moving averages and set both z-scores to 0.0; a
missing sensor_data or signal key raises mid-assignment and routes the
(possibly partially mutated) record to errors. -/
def preprocessData (e : Element) : Except Element Element :=
  match e.sensor_data with
  | none => Except.error e
  | some sd =>
      match sd.temperature with
      | none => Except.error e
      | some t =>
          match sd.vibration with
          | none => Except.error { e with sensor_data := some { sd with temp_ma := some t } }
          | some v =>
              let sd2 := { sd with
                temp_ma := some t,
                vibration_ma := some v,
                temp_zscore := some 0,
                vibration_zscore := some 0 }
              Except.ok { e with sensor_data := some sd2 }

/-- Body of a 200 answer from the scoring service as read back through
result.get in the Score stage. -/
structure ScoreBody where
  is_anomaly : Option Bool
  temp_anomaly_score : Option ℚ
  vibration_anomaly_score : Option ℚ
deriving DecidableEq, Repr

/-- Outcome of the requests.post call to the scoring service: a 200 with a
JSON body, a non-200 status, or a raised RequestException (timeout or
connection failure). -/
inductive ScorerResp where
  | ok200 (body : ScoreBody)
  | non200 (code : ℕ)
  | reqError
deriving DecidableEq, Repr

/-- DetectAnomaliesWithML.process (pipeline.py lines 68-103): build the
payload from the record (missing keys raise and route the record to
errors), call the scorer; on a 200 overwrite is_anomaly and the two score
keys from the response with .get defaults; on a non-200 status or request
exception keep the record exactly as it was and yield it on the main
output. -/
def detectAnomaliesWithML (resp : ScorerResp) (e : Element) :
    Except Element Element :=
  match e.device_id, e.timestamp, e.sensor_data with
  | some _, some _, some sd =>
      match sd.temperature, sd.vibration with
      | some _, some _ =>
          match resp with
          | ScorerResp.ok200 body => Except.ok { e with
              is_anomaly := some (body.is_anomaly.getD false),
              sensor_data := some { sd with
                temp_anomaly_score := some (body.temp_anomaly_score.getD 0),
                vibration_anomaly_score := some (body.vibration_anomaly_score.getD 0) } }
          | ScorerResp.non200 _ => Except.ok e
          | ScorerResp.reqError => Except.ok e
      | _, _ => Except.error e
  | _, _, _ => Except.error e

/-- SendAlerts.process (pipeline.py lines 105-140): for records flagged
anomalous, build the alert payload (missing keys raise and route the record
to errors) and post it, logging any failure; the record itself is always
yielded unchanged on the main output when payload construction
succeeded. -/
def sendAlerts (e : Element) : Except Element Element :=
  if e.is_anomaly.getD false then
    match e.device_id, e.timestamp, e.sensor_data with
    | some _, some _, some sd =>
        match sd.temperature, sd.vibration with
        | some _, some _ => Except.ok e
        | _, _ => Except.error e
    | _, _, _ => Except.error e
  else Except.ok e

/-- Row written to the warehouse sink, one field per schema column of
pipeline.py line 242. -/
structure BQRow where
  device_id : String
  timestamp : String
  processed_at : String
  building : String
  floor : ℤ
  room : String
  device_type : String
  temperature : ℚ
  vibration : ℚ
  is_anomaly : Bool
  temp_anomaly_score : ℚ
  vibration_anomaly_score : ℚ
  anomaly_type : Option String
  temp_ma : ℚ
  vibration_ma : ℚ
  temp_zscore : ℚ
  vibration_zscore : ℚ
deriving DecidableEq, Repr

/-- FormatForBigQuery.process (pipeline.py lines 142-175): flatten the
record into the sink row; direct key accesses (device_id, timestamp,
processed_at, location with its three keys, device_type, the two signal
values, is_anomaly) raise on absence and route the record to errors, the
anomaly scores and statistical features default through .get. -/
def formatForBigQuery (e : Element) : Except Element BQRow :=
  match e.device_id, e.timestamp, e.processed_at, e.location, e.device_type,
      e.sensor_data, e.is_anomaly with
  | some did, some ts, some pa, some loc, some dt, some sd, some ia =>
      match sd.temperature, sd.vibration with
      | some t, some v => Except.ok {
          device_id := did, timestamp := ts, processed_at := pa,
          building := loc.building, floor := loc.floor, room := loc.room,
          device_type := dt, temperature := t, vibration := v,
          is_anomaly := ia,
          temp_anomaly_score := sd.temp_anomaly_score.getD 0,
          vibration_anomaly_score := sd.vibration_anomaly_score.getD 0,
          anomaly_type := sd.anomaly_type,
          temp_ma := sd.temp_ma.getD 0,
          vibration_ma := sd.vibration_ma.getD 0,
          temp_zscore := sd.temp_zscore.getD 0,
          vibration_zscore := sd.vibration_zscore.getD 0 }
      | _, _ => Except.error e
  | _, _, _, _, _, _, _ => Except.error e

/-- Main output of one ParDo stage over a bundle of inputs: the ok results
in order. -/
def stageMain {α β ε : Type} (f : α → Except ε β) (inputs : List α) : List β :=
  inputs.filterMap (fun a => (f a).toOption)

/-- Tagged errors output of one ParDo stage over a bundle of inputs. -/
def stageErrs {α β ε : Type} (f : α → Except ε β) (inputs : List α) : List ε :=
  inputs.filterMap (fun a => match f a with
    | Except.error x => some x
    | Except.ok _ => none)

/-- run_pipeline (pipeline.py lines 177-263).  The with-statement opened at
line 208 contains a single statement, the messages assignment at lines
210-216: lines 219-257 are indented at the try level, outside the
with-block.  Leaving the block runs the job, so the executed pipeline
consists of exactly the Read transform and the Parse ParDo; its two output
collections (main parsed records and tagged parse errors) feed no further
transform and no sink.  For this streaming job the block exit stays in
wait_until_finish, so the wiring for Preprocess, Score, Alert, Format and
the error Flatten at lines 219-257 never becomes part of any executed job.
The function returns the two collections the executed job materializes. -/
def run_pipeline (now : String) (msgs : List RawMsg) :
    List Element × List RawMsg :=
  (stageMain (parseMessage now) msgs, stageErrs (parseMessage now) msgs)

/-- Sensor data with both signals present and no derived keys yet, as a
freshly ingested message carries it. -/
def fullSensorData : SensorData :=
  ⟨some 22, some 1, none, none, none, none, none, none, none⟩

/-- Well-formed ingested record: every key the stages read is present
(simulator messages carry device_id, timestamp, location, device_type,
sensor_data and is_anomaly). -/
def baseElement : Element :=
  ⟨some "dev-1", some "2026-01-01T00:00:00", none, some ⟨"B1", 2, "201"⟩,
   some "temperature_sensor", some fullSensorData, some false⟩

/-- baseElement as it stands entering the Score stage: processed_at was
stamped by Parse (the statistics Preprocess adds are left absent here to
exercise the sink-row defaults). -/
def atFormatElement : Element :=
  { baseElement with processed_at := some "2026-01-01T00:00:05" }

end Pipeline

namespace MlServer

/-- C1: for every request to the combined /detect endpoint that returns a
200 PredictionResult, the returned is_anomaly field equals the boolean OR
of is_temp_anomaly and is_vibration_anomaly in that same result. -/
theorem detect_is_anomaly_eq_or (st : ServerState) (m : Metrics) (now : Instant)
    (body : Option Payload) (r : PredictionResult) (m2 : Metrics)
    (h : detect_anomalies st m now body = (DetectResp.ok r, m2)) :
    r.is_anomaly = (r.is_temp_anomaly || r.is_vibration_anomaly) := by
  unfold detect_anomalies at h
  repeat' split at h
  all_goals simp_all
  all_goals (obtain ⟨h1, h2⟩ := h; subst h1; rfl)

/-- Witness for C1: a concrete 200 response whose is_anomaly field is the
OR of the two per-signal flags. -/
theorem detect_is_anomaly_eq_or_witness :
    detect_anomalies loadedState Metrics.init noonInstant (some basicPayload) =
      (DetectResp.ok okResultBasic, ⟨1, 1, 0, 0, 0⟩) ∧
    okResultBasic.is_anomaly = (okResultBasic.is_temp_anomaly || okResultBasic.is_vibration_anomaly) :=
  ⟨rfl, detect_is_anomaly_eq_or loadedState Metrics.init noonInstant
    (some basicPayload) okResultBasic ⟨1, 1, 0, 0, 0⟩ rfl⟩

end MlServer

namespace MlServer

/-- C2: in serving mode (no history), prepare_features of any payload whose
timestamp is absent or well-formed yields a feature vector with temp_ma
equal to the temperature, vibration_ma equal to the vibration, both
z-scores 0, and missing temperature or vibration substituted by 0 instead
of failing. -/
theorem prepare_features_serving (data : Payload) (now : Instant)
    (h : ∀ s, data.timestamp ≠ some (TsVal.malformed s)) :
    ∃ f : Features, prepare_features data now = some f ∧
      f.temp_ma = f.temperature ∧ f.vibration_ma = f.vibration ∧
      f.temp_zscore = 0 ∧ f.vibration_zscore = 0 ∧
      f.temperature = data.temperature.getD 0 ∧
      f.vibration = data.vibration.getD 0 ∧
      (data.temperature = none → f.temperature = 0) ∧
      (data.vibration = none → f.vibration = 0) := by
  have hgd : data.timestamp = none ∨ ∃ t, data.timestamp = some (TsVal.good t) := by
    cases hts : data.timestamp with
    | none => exact Or.inl rfl
    | some v =>
        cases v with
        | good t => exact Or.inr ⟨t, rfl⟩
        | malformed s => exact absurd hts (h s)
  rcases hgd with hts | ⟨t, hts⟩
  · refine ⟨⟨data.temperature.getD 0, data.vibration.getD 0, now.hour, now.dayofweek,
      data.temperature.getD 0, data.vibration.getD 0, 0, 0⟩, ?_, rfl, rfl, rfl, rfl, rfl, rfl, ?_, ?_⟩
    · simp [prepare_features, hts]
    · intro hh; simp [hh]
    · intro hh; simp [hh]
  · refine ⟨⟨data.temperature.getD 0, data.vibration.getD 0, t.hour, t.dayofweek,
      data.temperature.getD 0, data.vibration.getD 0, 0, 0⟩, ?_, rfl, rfl, rfl, rfl, rfl, rfl, ?_, ?_⟩
    · simp [prepare_features, hts]
    · intro hh; simp [hh]
    · intro hh; simp [hh]

/-- Witness for C2: the payload with every field absent is accepted and its
features degenerate to zeros. -/
theorem prepare_features_serving_witness :
    ∃ f : Features, prepare_features ⟨none, none, none, none⟩ noonInstant = some f ∧
      f.temp_ma = f.temperature ∧ f.vibration_ma = f.vibration ∧
      f.temp_zscore = 0 ∧ f.vibration_zscore = 0 ∧
      f.temperature = (⟨none, none, none, none⟩ : Payload).temperature.getD 0 ∧
      f.vibration = (⟨none, none, none, none⟩ : Payload).vibration.getD 0 ∧
      ((⟨none, none, none, none⟩ : Payload).temperature = none → f.temperature = 0) ∧
      ((⟨none, none, none, none⟩ : Payload).vibration = none → f.vibration = 0) :=
  prepare_features_serving ⟨none, none, none, none⟩ noonInstant (fun s => by simp)

end MlServer

namespace MlServer

/-- C5 counterexample: with no models loaded and an absent request body the
handler answers 500, not 400 — the models-not-loaded check precedes the
body check, so the claimed unconditional 400-on-absent-body is false. -/
theorem detect_absent_body_not_400 :
    (detect_anomalies emptyState Metrics.init noonInstant none).1 = DetectResp.err 500 ∧
    (detect_anomalies emptyState Metrics.init noonInstant none).1 ≠ DetectResp.err 400 := by
  decide

/-- C5 amended: the handler answers 400 on an absent body provided models
are loaded; it answers 500 whenever models are not loaded (taking
precedence over the body check) and whenever feature preparation fails; and
a body holding only temperature and vibration gets a 200 whose device_id
defaults to "unknown" when all artifacts are loaded. -/
theorem detect_status_semantics :
    (∀ (st : ServerState) (m : Metrics) (now : Instant),
      st.temp_model.isSome → st.vibration_model.isSome →
      (detect_anomalies st m now none).1 = DetectResp.err 400) ∧
    (∀ (st : ServerState) (m : Metrics) (now : Instant) (body : Option Payload),
      st.temp_model = none ∨ st.vibration_model = none →
      (detect_anomalies st m now body).1 = DetectResp.err 500) ∧
    (∀ (st : ServerState) (m : Metrics) (now : Instant) (data : Payload),
      prepare_features data now = none →
      (detect_anomalies st m now (some data)).1 = DetectResp.err 500) ∧
    (∀ (tm vm : ForestModel) (tsc vsc : Scaler) (m : Metrics) (now : Instant) (t v : ℚ),
      ∃ r : PredictionResult,
        (detect_anomalies ⟨some tm, some tsc, some vm, some vsc⟩ m now
          (some ⟨none, none, some t, some v⟩)).1 = DetectResp.ok r ∧
        r.device_id = "unknown") := by
  refine ⟨?_, ?_, ?_, ?_⟩
  · intro st m now h1 h2
    obtain ⟨tm, h1⟩ := Option.isSome_iff_exists.mp h1
    obtain ⟨vm, h2⟩ := Option.isSome_iff_exists.mp h2
    simp [detect_anomalies, h1, h2]
  · intro st m now body h
    unfold detect_anomalies
    rcases h with h | h
    · rw [h]
    · rw [h]; cases st.temp_model <;> rfl
  · intro st m now data h
    unfold detect_anomalies
    cases st.temp_model <;> cases st.vibration_model <;> simp [h]
  · intro tm vm tsc vsc m now t v
    exact ⟨_, rfl, rfl⟩

/-- Witness for C5 (amended): each branch at a concrete input — 400 for an
absent body with artifacts loaded, 500 with nothing loaded, 500 for a
malformed timestamp, and a 200 with device_id "unknown" for a body holding
only temperature and vibration. -/
theorem detect_status_semantics_witness :
    (detect_anomalies loadedState Metrics.init noonInstant none).1 = DetectResp.err 400 ∧
    (detect_anomalies emptyState Metrics.init noonInstant (some basicPayload)).1 = DetectResp.err 500 ∧
    (detect_anomalies loadedState Metrics.init noonInstant
      (some ⟨none, some (TsVal.malformed "not-a-date"), none, none⟩)).1 = DetectResp.err 500 ∧
    ∃ r : PredictionResult,
      (detect_anomalies ⟨some constForest, some idScaler, some constForest, some idScaler⟩
        Metrics.init noonInstant (some ⟨none, none, some 22, some 1⟩)).1 = DetectResp.ok r ∧
      r.device_id = "unknown" :=
  ⟨detect_status_semantics.1 loadedState Metrics.init noonInstant rfl rfl,
   detect_status_semantics.2.1 emptyState Metrics.init noonInstant (some basicPayload) (Or.inl rfl),
   detect_status_semantics.2.2.1 loadedState Metrics.init noonInstant
     ⟨none, some (TsVal.malformed "not-a-date"), none, none⟩ rfl,
   detect_status_semantics.2.2.2 constForest constForest idScaler idScaler
     Metrics.init noonInstant 22 1⟩

end MlServer

namespace MlServer

/-- C9 counterexample: a payload without a timestamp scored twice against
the same loaded artifacts at wall-clock times in different hours gets two
200 responses whose temp_anomaly_score fields differ (the hour feature
comes from datetime.now), so bit-identity for every payload is false. -/
theorem detect_no_timestamp_nondeterminism :
    (detect_anomalies hourState Metrics.init oneAmInstant (some minimalPayload)).1 =
      DetectResp.ok ⟨"unknown", TsEcho.fromNow oneAmInstant, 22, 1, 1, 1, false, false, false⟩ ∧
    (detect_anomalies hourState Metrics.init twoAmInstant (some minimalPayload)).1 =
      DetectResp.ok ⟨"unknown", TsEcho.fromNow twoAmInstant, 22, 1, 2, 2, false, false, false⟩ ∧
    (1 : ℚ) ≠ (2 : ℚ) := by
  refine ⟨rfl, rfl, by norm_num⟩

/-- C9 amended: for every payload that carries a timestamp field, the
response of the combined /detect endpoint is a function of the payload and
the loaded artifacts alone — two calls at any two wall-clock times and any
two counter states return identical bodies. -/
theorem detect_deterministic_with_timestamp (st : ServerState) (m1 m2 : Metrics)
    (now1 now2 : Instant) (data : Payload) (v : TsVal)
    (h : data.timestamp = some v) :
    (detect_anomalies st m1 now1 (some data)).1 =
      (detect_anomalies st m2 now2 (some data)).1 := by
  obtain ⟨did, dts, dtemp, dvib⟩ := data
  have h2 : dts = some v := h
  subst h2
  obtain ⟨tmo, tso, vmo, vso⟩ := st
  cases v <;> cases tmo <;> cases vmo <;> cases tso <;> cases vso <;> rfl

/-- Witness for C9 (amended): scoring tsPayload at two different instants
with different counter states returns the same body. -/
theorem detect_deterministic_with_timestamp_witness :
    tsPayload.timestamp = some (TsVal.good noonInstant) ∧
    (detect_anomalies hourState Metrics.init oneAmInstant (some tsPayload)).1 =
      (detect_anomalies hourState ⟨7, 5, 3, 2, 1⟩ twoAmInstant (some tsPayload)).1 :=
  ⟨rfl, detect_deterministic_with_timestamp hourState Metrics.init ⟨7, 5, 3, 2, 1⟩
    oneAmInstant twoAmInstant tsPayload (TsVal.good noonInstant) rfl⟩

end MlServer

namespace MlServer

/-- Helper: every single call to the handler preserves the ordering between
the success counter and the total counter. -/
theorem detect_step_le (st : ServerState) (m : Metrics) (now : Instant)
    (body : Option Payload)
    (h : m.ml_predictions_success_total ≤ m.ml_predictions_total) :
    (detect_anomalies st m now body).2.ml_predictions_success_total ≤
      (detect_anomalies st m now body).2.ml_predictions_total := by
  unfold detect_anomalies
  repeat' split
  all_goals simp_all
  all_goals omega

/-- Helper: the counter ordering is preserved by any sequence of calls
folded over an initial state that satisfies it. -/
theorem foldl_detect_le (calls : List (ServerState × Instant × Option Payload)) :
    ∀ m : Metrics, m.ml_predictions_success_total ≤ m.ml_predictions_total →
    (calls.foldl (fun m c => (detect_anomalies c.1 m c.2.1 c.2.2).2) m).ml_predictions_success_total ≤
      (calls.foldl (fun m c => (detect_anomalies c.1 m c.2.1 c.2.2).2) m).ml_predictions_total := by
  induction calls with
  | nil => intro m h; exact h
  | cons c l ih =>
      intro m h
      exact ih _ (detect_step_le c.1 m c.2.1 c.2.2 h)

/-- C10: on every execution path of the /detect handler the success counter
grows exactly when the response is a 200 and by exactly one, the total
counter grows by at least that much (and by at most one), and consequently
after every sequence of calls from process start
ml_predictions_success_total is at most ml_predictions_total. -/
theorem detect_metrics_invariant :
    (∀ (st : ServerState) (m : Metrics) (now : Instant) (body : Option Payload),
      ∃ dt : ℕ, dt ≤ 1 ∧
        (detect_anomalies st m now body).2.ml_predictions_total =
          m.ml_predictions_total + dt ∧
        (detect_anomalies st m now body).2.ml_predictions_success_total =
          m.ml_predictions_success_total +
            (if (detect_anomalies st m now body).1.statusCode = 200 then 1 else 0) ∧
        (if (detect_anomalies st m now body).1.statusCode = 200 then 1 else 0) ≤ dt) ∧
    (∀ calls : List (ServerState × Instant × Option Payload),
      (runCalls calls).ml_predictions_success_total ≤ (runCalls calls).ml_predictions_total) := by
  constructor
  · intro st m now body
    obtain ⟨tmo, tso, vmo, vso⟩ := st
    cases tmo with
    | none => exact ⟨0, Nat.zero_le 1, rfl, rfl, Nat.le_refl 0⟩
    | some tm =>
        cases vmo with
        | none => exact ⟨0, Nat.zero_le 1, rfl, rfl, Nat.le_refl 0⟩
        | some vm =>
            cases body with
            | none => exact ⟨1, Nat.le_refl 1, rfl, rfl, Nat.zero_le 1⟩
            | some data =>
                simp only [detect_anomalies]
                repeat' split
                all_goals first
                  | exact ⟨1, Nat.le_refl 1, rfl, rfl, Nat.le_refl 1⟩
                  | exact ⟨1, Nat.le_refl 1, rfl, rfl, Nat.zero_le 1⟩
                  | simp_all [DetectResp.statusCode]
  · intro calls
    exact foldl_detect_le calls Metrics.init (Nat.le_refl 0)

end MlServer

namespace Trainer

/-- C3 counterexample: when the temperature fit fails but fetch, preparation
and the vibration fit succeed, the run persists the vibration artifacts —
it does not abort with nothing published. -/
theorem train_models_publishes_despite_fit_failure :
    train_models fitFailEnv =
      ["vibration_metrics.json", "vibration_model.pkl", "vibration_scaler.pkl"] ∧
    train_models fitFailEnv ≠ [] := by
  refine ⟨rfl, ?_⟩
  decide

/-- C3 amended: an empty or failed fetch, or a feature-preparation failure,
aborts the run with nothing persisted; a failed fit for one signal persists
none of that signal's three artifacts, but the run continues and may still
persist the other signal's artifacts; every failure path returns normally. -/
theorem train_models_failure_isolation :
    (∀ env : RunEnv, env.fetched = none → train_models env = []) ∧
    (∀ env : RunEnv, env.fetched = some 0 → train_models env = []) ∧
    (∀ env : RunEnv, env.prep_ok = false → train_models env = []) ∧
    (∀ env : RunEnv, env.fit_temp_ok = false → ∀ s ∈ train_models env,
      s = "vibration_metrics.json" ∨ s = "vibration_model.pkl" ∨ s = "vibration_scaler.pkl") ∧
    (∀ env : RunEnv, env.fit_vib_ok = false → ∀ s ∈ train_models env,
      s = "temperature_metrics.json" ∨ s = "temperature_model.pkl" ∨ s = "temperature_scaler.pkl") := by
  refine ⟨?_, ?_, ?_, ?_, ?_⟩
  · intro env h
    obtain ⟨f, p, ft, et, fv, ev⟩ := env
    have hf : f = none := h
    subst hf
    rfl
  · intro env h
    obtain ⟨f, p, ft, et, fv, ev⟩ := env
    have hf : f = some 0 := h
    subst hf
    rfl
  · intro env h
    obtain ⟨f, p, ft, et, fv, ev⟩ := env
    have hp : p = false := h
    subst hp
    cases f with
    | none => rfl
    | some n => by_cases hn : n = 0 <;> simp [train_models, hn]
  · intro env h s hs
    obtain ⟨f, p, ft, et, fv, ev⟩ := env
    have hft : ft = false := h
    subst hft
    cases f with
    | none => simp [train_models] at hs
    | some n =>
        by_cases hn : n = 0
        · simp [train_models, hn] at hs
        · cases p <;> cases fv <;> cases ev <;>
            simp [train_models, train_isolation_forest, evaluate_model, hn] at hs <;>
            tauto
  · intro env h s hs
    obtain ⟨f, p, ft, et, fv, ev⟩ := env
    have hfv : fv = false := h
    subst hfv
    cases f with
    | none => simp [train_models] at hs
    | some n =>
        by_cases hn : n = 0
        · simp [train_models, hn] at hs
        · cases p <;> cases ft <;> cases et <;>
            simp [train_models, train_isolation_forest, evaluate_model, hn] at hs <;>
            tauto

/-- Witness for C3 (amended): concrete runs — failed fetch, empty fetch and
failed preparation persist nothing; with the temperature fit failed, every
persisted file is a vibration artifact, and symmetrically. -/
theorem train_models_failure_isolation_witness :
    train_models ⟨none, true, true, true, true, true⟩ = [] ∧
    train_models ⟨some 0, true, true, true, true, true⟩ = [] ∧
    train_models ⟨some 5, false, true, true, true, true⟩ = [] ∧
    ("vibration_model.pkl" = "vibration_metrics.json" ∨
      "vibration_model.pkl" = "vibration_model.pkl" ∨
      "vibration_model.pkl" = "vibration_scaler.pkl") ∧
    ("temperature_model.pkl" = "temperature_metrics.json" ∨
      "temperature_model.pkl" = "temperature_model.pkl" ∨
      "temperature_model.pkl" = "temperature_scaler.pkl") :=
  ⟨train_models_failure_isolation.1 ⟨none, true, true, true, true, true⟩ rfl,
   train_models_failure_isolation.2.1 ⟨some 0, true, true, true, true, true⟩ rfl,
   train_models_failure_isolation.2.2.1 ⟨some 5, false, true, true, true, true⟩ rfl,
   train_models_failure_isolation.2.2.2.1 fitFailEnv rfl "vibration_model.pkl" (by decide),
   train_models_failure_isolation.2.2.2.2 ⟨some 5, true, true, true, false, true⟩ rfl
     "temperature_model.pkl" (by decide)⟩

end Trainer

namespace Trainer

/-- C6: on a per-device series ordered by timestamp, the rolling-mean
column of trainer.py equals, at every position, the spec reading — the
arithmetic mean over the trailing window of the up to 5 most-recent
readings inclusive of the current one, the window holding min 5 (i+1)
elements and never fewer than one. -/
theorem rollingMean5_matches_spec (xs : List ℚ) (i : ℕ) (h : i < xs.length) :
    (rollingMean5 xs)[i]? = some (specMovingAvg xs i) ∧
    rollingWindow xs i = specTrailingWindow xs i ∧
    (specTrailingWindow xs i).length = min 5 (i + 1) ∧
    1 ≤ (specTrailingWindow xs i).length := by
  have hwin : rollingWindow xs i = specTrailingWindow xs i := by
    unfold rollingWindow specTrailingWindow
    exact List.rtake_eq_reverse_take_reverse (xs.take (i + 1)) 5
  have hlen : (specTrailingWindow xs i).length = min 5 (i + 1) := by
    unfold specTrailingWindow
    simp only [List.length_reverse, List.length_take]
    omega
  refine ⟨?_, hwin, hlen, ?_⟩
  · unfold rollingMean5 specMovingAvg
    rw [List.getElem?_map, List.getElem?_range h]
    simp only [Option.map_some']
    rw [hwin]
  · rw [hlen]; omega

/-- Witness for C6: the sixth entry of a concrete six-point series is the
mean of its trailing five points. -/
theorem rollingMean5_matches_spec_witness :
    (rollingMean5 [1, 2, 3, 4, 5, 6])[5]? = some (specMovingAvg [1, 2, 3, 4, 5, 6] 5) ∧
    rollingWindow [1, 2, 3, 4, 5, 6] 5 = specTrailingWindow [1, 2, 3, 4, 5, 6] 5 ∧
    (specTrailingWindow [(1 : ℚ), 2, 3, 4, 5, 6] 5).length = min 5 (5 + 1) ∧
    1 ≤ (specTrailingWindow [(1 : ℚ), 2, 3, 4, 5, 6] 5).length :=
  rollingMean5_matches_spec [1, 2, 3, 4, 5, 6] 5 (by norm_num)

end Trainer

namespace Trainer

/-- C7: for a constant-valued device history of length at least 2 the
z-score column handed to fitting is identically the plain zero (the raw
column is NaN via 0.0/0.0, fillna replaces it), so it contains no null
entry and no division fault occurs. -/
theorem constant_history_zscore_zero (c : ℚ) (n : ℕ) (h : 2 ≤ n) :
    zscoreFeature (List.replicate n c) = List.replicate n (PdFloat.finite 0 1) ∧
    ∀ v ∈ zscoreFeature (List.replicate n c), v.isNull = false ∧ v.isZero = true := by
  have hn : (n : ℚ) ≠ 0 := Nat.cast_ne_zero.mpr (by omega)
  have hmean : listMean (List.replicate n c) = c := by
    unfold listMean
    rw [List.sum_replicate, List.length_replicate, nsmul_eq_mul]
    exact mul_div_cancel_left₀ c hn
  have hvar : sampleVar (List.replicate n c) = 0 := by
    unfold sampleVar
    rw [hmean]
    rw [List.map_replicate]
    simp
  have hcol : zscoreColumn (List.replicate n c) = List.replicate n PdFloat.nan := by
    unfold zscoreColumn
    rw [List.map_replicate, hmean, hvar, List.length_replicate]
    have h1 : ¬ n ≤ 1 := by omega
    simp [pdDivByStd, h1]
  have hfeat : zscoreFeature (List.replicate n c) = List.replicate n (PdFloat.finite 0 1) := by
    unfold zscoreFeature
    rw [hcol, List.map_replicate]
    rfl
  refine ⟨hfeat, ?_⟩
  intro v hv
  rw [hfeat] at hv
  have hveq : v = PdFloat.finite 0 1 := List.eq_of_mem_replicate hv
  subst hveq
  exact ⟨rfl, rfl⟩

/-- Witness for C7: a three-reading constant history at 7 degrees gives the
all-zero z-score column with no nulls. -/
theorem constant_history_zscore_zero_witness :
    zscoreFeature (List.replicate 3 (7 : ℚ)) = List.replicate 3 (PdFloat.finite 0 1) ∧
    ∀ v ∈ zscoreFeature (List.replicate 3 (7 : ℚ)), v.isNull = false ∧ v.isZero = true :=
  constant_history_zscore_zero 7 3 (by norm_num)

end Trainer

namespace Pipeline

/-- C4: a record entering the Score stage with its required keys present is
yielded unchanged on the main output when the scorer call raises or answers
non-200; it then passes the Alert stage unchanged, and the Format stage
accepts it, defaulting its absent anomaly-score fields to 0 in the sink
row. -/
theorem score_failure_passthrough (e : Element) (sd : SensorData)
    (hsd : e.sensor_data = some sd)
    (hdid : e.device_id.isSome) (hts : e.timestamp.isSome)
    (hpa : e.processed_at.isSome) (hloc : e.location.isSome)
    (hdt : e.device_type.isSome) (hia : e.is_anomaly.isSome)
    (htemp : sd.temperature.isSome) (hvib : sd.vibration.isSome)
    (htas : sd.temp_anomaly_score = none) (hvas : sd.vibration_anomaly_score = none)
    (resp : ScorerResp)
    (hresp : resp = ScorerResp.reqError ∨ ∃ c, resp = ScorerResp.non200 c) :
    detectAnomaliesWithML resp e = Except.ok e ∧
    sendAlerts e = Except.ok e ∧
    ∃ row : BQRow, formatForBigQuery e = Except.ok row ∧
      row.temp_anomaly_score = 0 ∧ row.vibration_anomaly_score = 0 := by
  obtain ⟨did, hdid⟩ := Option.isSome_iff_exists.mp hdid
  obtain ⟨ts, hts⟩ := Option.isSome_iff_exists.mp hts
  obtain ⟨pa, hpa⟩ := Option.isSome_iff_exists.mp hpa
  obtain ⟨loc, hloc⟩ := Option.isSome_iff_exists.mp hloc
  obtain ⟨dt, hdt⟩ := Option.isSome_iff_exists.mp hdt
  obtain ⟨ia, hia⟩ := Option.isSome_iff_exists.mp hia
  obtain ⟨tv, htemp⟩ := Option.isSome_iff_exists.mp htemp
  obtain ⟨vv, hvib⟩ := Option.isSome_iff_exists.mp hvib
  refine ⟨?_, ?_, ?_⟩
  · rcases hresp with h | ⟨c, h⟩ <;> subst h <;>
      simp only [detectAnomaliesWithML, hdid, hts, hsd, htemp, hvib]
  · cases ia with
    | false => simp only [sendAlerts, hia, Option.getD_some, if_neg Bool.false_ne_true]
    | true => simp [sendAlerts, hia, hdid, hts, hsd, htemp, hvib]
  · simp only [formatForBigQuery, hdid, hts, hpa, hloc, hdt, hsd, hia, htemp, hvib]
    exact ⟨_, rfl, by simp [htas], by simp [hvas]⟩

/-- Witness for C4: the concrete well-formed record with absent score
fields survives an unreachable scorer unchanged and formats with zero
scores. -/
theorem score_failure_passthrough_witness :
    detectAnomaliesWithML ScorerResp.reqError atFormatElement = Except.ok atFormatElement ∧
    sendAlerts atFormatElement = Except.ok atFormatElement ∧
    ∃ row : BQRow, formatForBigQuery atFormatElement = Except.ok row ∧
      row.temp_anomaly_score = 0 ∧ row.vibration_anomaly_score = 0 :=
  score_failure_passthrough atFormatElement fullSensorData rfl rfl rfl rfl rfl rfl rfl
    rfl rfl rfl rfl ScorerResp.reqError (Or.inl rfl)

end Pipeline

namespace Pipeline

/-- C8: the job executed by run_pipeline contains only the Read and Parse
transforms, because the with-block at pipeline.py line 208 closes at line
216 and lines 219-257 (the remaining stages and the error Flatten) lie
outside it.  Evaluated at a malformed message alongside a well-formed
record: the parse error sits in a tagged output no transform consumes, the
parsed record feeds nothing, no record reaches Preprocess, Score, Alert or
Format, and no merged diagnostic sequence exists in the executed job. -/
theorem executed_job_parse_only :
    run_pipeline "2026-02-03T04:05:06"
      [RawMsg.invalid "not json", RawMsg.valid baseElement] =
    ([{ baseElement with processed_at := some "2026-02-03T04:05:06" }],
     [RawMsg.invalid "not json"]) := rfl

end Pipeline
